import Mathlib

/-!
Shallow embedding of src/static/script.js, the client-side quiz session
controller of the ai-tutor repository.

Modelling conventions
- The four DOM sections (setup, lesson, quiz, result) are shown or hidden
  together by every handler, so visibility is modelled as a Screen enum.
- DOM element contents (topic input, feedback area, rendered question,
  result text) are fields of the state record; the rendered question is
  abstracted to the index that displayQuestion rendered.
- The 2500 ms setTimeout callback scheduled by the submit-answer handler
  is modelled by a pendingAdvance flag; fireAdvance is the callback body.
  resetUI performs no clearTimeout, so it leaves the flag untouched.
- A JavaScript statement that would throw an uncaught TypeError (reading
  a property of null or undefined) stops the handler and sets jsError;
  mutations executed before the throwing statement are kept, matching
  evaluation order in the source.
- fetchAPI is modelled by passing the response it would return as an
  Option argument (none models a network failure, a non-ok status, or a
  JSON parse failure, in which case fetchAPI returns null); its finally
  clause always leaves the loading spinner hidden, so isLoading ends
  false whenever a request was issued.
-/

namespace AITutor

/-- A quiz question as delivered in the generate_quiz payload. -/
structure Question where
  question : String
  options : List String
  answer : String
  explanation : String
deriving DecidableEq, Repr

/-- The userSelections object with fields subject, topic and level. -/
structure Selections where
  subject : String
  topic : String
  level : String
deriving DecidableEq, Repr

/-- Response payload of generate_lesson; lesson_html is none when the
field is absent (JS undefined, which is falsy). -/
structure LessonPayload where
  lesson_html : Option String
deriving DecidableEq, Repr

/-- Response payload of generate_quiz; questions is none when the field
is absent. An empty list is present and, being an array, truthy. -/
structure QuizPayload where
  questions : Option (List Question)
deriving DecidableEq, Repr

/-- Which of the four mutually exclusive sections is visible. -/
inductive Screen where
  | Setup
  | Lesson
  | Quiz
  | Result
deriving DecidableEq, Repr

/-- Result-message tier of showResults. -/
inductive Tier where
  | excellent
  | good
  | needsReview
deriving DecidableEq, Repr

/-- The whole observable state of the controller: script variables
(quizData, currentQuestionIndex, score, userSelections), input element
values, rendered DOM contents, button visibility, the pending timeout
flag and the uncaught-error flag. -/
structure St where
  screen : Screen
  isLoading : Bool
  quizData : Option (List Question)
  currentQuestionIndex : Nat
  score : Nat
  userSelections : Option Selections
  subjectValue : String
  topicValue : String
  levelValue : String
  lessonContent : String
  renderedQuestion : Option Nat
  feedback : String
  submitVisible : Bool
  startQuizVisible : Bool
  resultView : Option (Nat × Nat × ℚ × Tier)
  pendingAdvance : Bool
  jsError : Bool
deriving DecidableEq, Repr

/-- resetUI (script.js lines 35-46): shows Setup, hides the other three
sections and the start-quiz button, clears the feedback area and the
topic input, and resets quizData, currentQuestionIndex and score.  It
does not touch userSelections, the loading spinner, the rendered
lesson, question or result contents, the submit button, or a pending
setTimeout callback (there is no clearTimeout in the source). -/
def resetUI (st : St) : St :=
  { st with
    screen := Screen.Setup
    startQuizVisible := false
    feedback := ""
    topicValue := ""
    quizData := none
    currentQuestionIndex := 0
    score := 0 }

/-- The restart button handler is resetUI itself
(script.js line 173: restartBtn.addEventListener with resetUI). -/
def restartClick (st : St) : St := resetUI st

/-- displayQuestion (lines 101-122): clears feedback, shows the submit
button, then reads quizData at currentQuestionIndex.  If quizData is
null or the index is out of bounds, the property access on null or
undefined throws after those first two mutations; otherwise the
question at the current index is rendered. -/
def displayQuestion (st : St) : St :=
  let st1 := { st with feedback := "", submitVisible := true }
  match st1.quizData with
  | none => { st1 with jsError := true }
  | some qs =>
    match qs[st1.currentQuestionIndex]? with
    | none => { st1 with jsError := true }
    | some _ => { st1 with renderedQuestion := some st1.currentQuestionIndex }

/-- Rounding to one decimal as toFixed with one digit does on the exact
value: round half up at the first decimal place. -/
def toFixed1 (q : ℚ) : ℚ := (⌊q * 10 + 1 / 2⌋ : ℚ) / 10

/-- The percentage computed by showResults (line 160). -/
def resultPercentage (score total : Nat) : ℚ :=
  toFixed1 ((score : ℚ) / (total : ℚ) * 100)

/-- The message tier chosen by showResults (lines 163-169): the rounded
percentage is compared with 80 and then 60, inclusive lower bounds. -/
def resultTier (score total : Nat) : Tier :=
  if 80 ≤ resultPercentage score total then Tier.excellent
  else if 60 ≤ resultPercentage score total then Tier.good
  else Tier.needsReview

/-- showResults (lines 157-171): hides the quiz section, shows the
result section, then computes score, total, percentage and tier into
the result text.  Reading quizData.length on null would throw after the
visibility change. -/
def showResults (st : St) : St :=
  let st1 := { st with screen := Screen.Result }
  match st1.quizData with
  | none => { st1 with jsError := true }
  | some qs =>
    let view := some (st1.score, qs.length,
      resultPercentage st1.score qs.length, resultTier st1.score qs.length)
    { st1 with resultView := view }

/-- generateBtn click handler (lines 68-89): reads the three inputs,
returns after an alert when the topic is empty (no request, no state
change), otherwise commits userSelections, performs the
generate_lesson request, and on a truthy data.lesson_html renders the
lesson and switches to the Lesson screen.  fetchAPI leaves the spinner
hidden in its finally clause. -/
def generateClick (st : St) (resp : Option LessonPayload) : St :=
  if st.topicValue = "" then st
  else
    let st1 := { st with
      userSelections := some ⟨st.subjectValue, st.topicValue, st.levelValue⟩
      isLoading := false }
    match resp with
    | none => st1
    | some p =>
      match p.lesson_html with
      | none => st1
      | some content =>
        if content = "" then st1
        else
          { st1 with
            lessonContent := content
            screen := Screen.Lesson
            startQuizVisible := true }

/-- startQuizBtn click handler (lines 91-99): performs the
generate_quiz request; when data and data.questions are truthy (an
empty array is truthy) it stores the questions, switches the visible
section from Lesson to Quiz and calls displayQuestion.  It never
assigns currentQuestionIndex or score. -/
def startQuizClick (st : St) (resp : Option QuizPayload) : St :=
  let st1 := { st with isLoading := false }
  match resp with
  | none => st1
  | some p =>
    match p.questions with
    | none => st1
    | some qs =>
      displayQuestion { st1 with quizData := some qs, screen := Screen.Quiz }

/-- The feedback text assembled by the submit handler (lines 134-141),
with the HTML markup abstracted away. -/
def feedbackFor (userAnswer : String) (q : Question) : String :=
  (if userAnswer = q.answer then "Correct!"
   else "Incorrect. The correct answer is: " ++ q.answer)
  ++ " Explanation: " ++ q.explanation

/-- submitAnswerBtn click handler (lines 124-155): returns after an
alert when no option is checked; otherwise reads the current question
(throwing if quizData is null or the index is out of bounds, before
any mutation), increments score exactly when the selected value equals
question.answer under strict string equality, shows feedback, hides
the submit button and schedules the delayed advance. -/
def submitAnswerClick (st : St) (selected : Option String) : St :=
  match selected with
  | none => st
  | some userAnswer =>
    match st.quizData with
    | none => { st with jsError := true }
    | some qs =>
      match qs[st.currentQuestionIndex]? with
      | none => { st with jsError := true }
      | some question =>
        let st1 := if userAnswer = question.answer
                   then { st with score := st.score + 1 }
                   else st
        { st1 with
          feedback := feedbackFor userAnswer question
          submitVisible := false
          pendingAdvance := true }

/-- Body of the setTimeout callback (lines 147-154): increments
currentQuestionIndex, then either renders the next question, shows the
results, or throws on quizData.length when quizData is null (after the
increment). -/
def fireAdvance (st : St) : St :=
  let st1 := { st with
    pendingAdvance := false
    currentQuestionIndex := st.currentQuestionIndex + 1 }
  match st1.quizData with
  | none => { st1 with jsError := true }
  | some qs =>
    if st1.currentQuestionIndex < qs.length then displayQuestion st1
    else showResults st1

/-- A click on the submit button has an effect only while the quiz
section and the button are visible; a hidden button cannot be clicked. -/
def clickSubmit (st : St) (selected : Option String) : St :=
  if st.screen = Screen.Quiz ∧ st.submitVisible = true
  then submitAnswerClick st selected
  else st

/-- The scheduled callback fires if one is pending; otherwise nothing
happens. -/
def elapse (st : St) : St :=
  if st.pendingAdvance = true then fireAdvance st else st

/-- One full answer step of a quiz run: click submit with the given
option selected, then let the 2500 ms delay elapse. -/
def quizStep (st : St) (a : String) : St := elapse (clickSubmit st (some a))

/-- A quiz run: perform one step per answer in the list. -/
def runAnswers (st : St) (answers : List String) : St :=
  answers.foldl quizStep st

/-- The state at DOMContentLoaded before the initial resetUI call: the
script variable initialisers (quizData null, index and score zero,
userSelections the empty object, modelled as none) with empty DOM
contents, nothing pending and no error. -/
def startupState : St :=
  { screen := Screen.Setup
    isLoading := false
    quizData := none
    currentQuestionIndex := 0
    score := 0
    userSelections := none
    subjectValue := ""
    topicValue := ""
    levelValue := ""
    lessonContent := ""
    renderedQuestion := none
    feedback := ""
    submitVisible := false
    startQuizVisible := false
    resultView := none
    pendingAdvance := false
    jsError := false }

/-- The initial state: the script ends by calling resetUI (line 176). -/
def initialState : St := resetUI startupState

/-- Truthiness of data and data.lesson_html as tested on line 81: the
field must be present and a non-empty string. -/
def lessonOk : Option LessonPayload → Bool
  | none => false
  | some p =>
    match p.lesson_html with
    | none => false
    | some s => !(s == "")

/-- Truthiness of data and data.questions as tested on line 93: the
field must be present; an array is truthy even when empty. -/
def quizOk : Option QuizPayload → Bool
  | none => false
  | some p => p.questions.isSome

/-- Invariant of a quiz run between steps: the stored quiz is fixed, no
advance is pending, no error has occurred, the score never exceeds the
index, the index never exceeds the quiz length, and the visible section
is Quiz with the submit button shown strictly before the end and Result
with the button hidden at the end. -/
abbrev QuizInv (qs : List Question) (st : St) : Prop :=
  st.quizData = some qs ∧
  st.pendingAdvance = false ∧
  st.jsError = false ∧
  st.score ≤ st.currentQuestionIndex ∧
  st.currentQuestionIndex ≤ qs.length ∧
  st.screen = (if st.currentQuestionIndex < qs.length
               then Screen.Quiz else Screen.Result) ∧
  st.submitVisible = decide (st.currentQuestionIndex < qs.length)

/-- A sample question used by concrete witnesses. -/
def sampleQuestion : Question :=
  { question := "What is 1/2 + 1/4?"
    options := ["3/4", "2/6"]
    answer := "3/4"
    explanation := "Use a common denominator." }

/-- A concrete reachable Lesson-screen state: the generate handler run
from the initial state after the user filled in the form, with a
successful lesson response. -/
def lessonState : St :=
  generateClick
    { initialState with
      subjectValue := "Math", topicValue := "Fractions",
      levelValue := "Beginner" }
    (some { lesson_html := some "Adding fractions needs a common denominator." })

/-- A concrete reachable Quiz-screen state: the start-quiz handler run
on lessonState with a one-question payload. -/
def quizStartState : St :=
  startQuizClick lessonState (some { questions := some [sampleQuestion] })

/-- A concrete reachable state in which the delayed advance is pending:
the single question of quizStartState has just been answered. -/
def pendingState : St :=
  submitAnswerClick quizStartState (some "3/4")

/-- A Lesson-screen state carrying a stale nonzero index and score, used
to exercise the start-quiz handler at an arbitrary pre-call value. -/
def stStaleIndex : St :=
  { lessonState with currentQuestionIndex := 1, score := 1 }

/-- A Quiz-screen state holding a one-question quiz with one point
scored, as showResults receives it. -/
def stScoredOne : St :=
  { startupState with quizData := some [sampleQuestion], score := 1 }

end AITutor

namespace AITutor

/-- C1: the claim states that a restart issued while a delayed advance is
pending prevents the callback from mutating post-restart state, leaving
exactly the initial state.  The source has no clearTimeout: after
resetUI the callback is still pending, and when it fires it increments
currentQuestionIndex from 0 to 1 and then throws reading length of the
null quizData.  The post-fire state differs from the reset state and
from the initial state, so the pending advance does mutate the fresh
session.  The spec (section 5) makes cancellation a stated requirement,
so this is a defect of the code. -/
theorem C1_restart_pending_fire :
    (resetUI pendingState).pendingAdvance = true ∧
    (fireAdvance (resetUI pendingState)).currentQuestionIndex = 1 ∧
    (fireAdvance (resetUI pendingState)).jsError = true ∧
    fireAdvance (resetUI pendingState) ≠ resetUI pendingState ∧
    fireAdvance (resetUI pendingState) ≠ initialState := by
  refine ⟨rfl, rfl, rfl, by decide, by decide⟩

/-- C2: the claim states that a successful start-quiz response with an
empty question list does not transition to the Quiz screen.  In the
source the guard tests truthiness of data.questions, and an empty array
is truthy, so the handler stores the empty list, hides the Lesson
section and shows the Quiz section before displayQuestion throws on the
missing question.  The screen after the call is Quiz, refuting the
claim as stated; the spec marks empty payload handling as the intended
contract, so this is a defect of the code. -/
theorem C2_empty_questions_enters_quiz :
    (startQuizClick lessonState (some { questions := some [] })).screen
      = Screen.Quiz ∧
    (startQuizClick lessonState (some { questions := some [] })).quizData
      = some [] ∧
    (startQuizClick lessonState (some { questions := some [] })).jsError
      = true := by
  refine ⟨rfl, rfl, rfl⟩

/-- C3 counterexample: the claim states that restart from every
reachable state yields selections equal to null.  lessonState is
reachable (initial state, form filled, successful lesson response) and
has committed selections; resetUI never touches userSelections, so the
post-restart selections are still set. -/
theorem C3_counterexample :
    ¬ (restartClick lessonState).userSelections = none := by
  decide

/-- C3 as amended: restart resets the screen to Setup, clears quizData,
currentQuestionIndex, score, the topic input, the feedback area and the
start-quiz button, and is idempotent; but it leaves userSelections and
the loading flag untouched rather than restoring them to their initial
values. -/
theorem C3_restart_amended (st : St) :
    (restartClick st).screen = Screen.Setup ∧
    (restartClick st).quizData = none ∧
    (restartClick st).currentQuestionIndex = 0 ∧
    (restartClick st).score = 0 ∧
    (restartClick st).topicValue = "" ∧
    (restartClick st).feedback = "" ∧
    (restartClick st).startQuizVisible = false ∧
    (restartClick st).userSelections = st.userSelections ∧
    (restartClick st).isLoading = st.isLoading ∧
    restartClick (restartClick st) = restartClick st := by
  refine ⟨rfl, rfl, rfl, rfl, rfl, rfl, rfl, rfl, rfl, rfl⟩

/-- Evaluation rule for the rounded percentage: if the scaled value
lies in the unit interval at an integer z, the percentage is z tenths. -/
theorem resultPercentage_eval (s n : Nat) (z : ℤ)
    (h1 : (z : ℚ) ≤ (s : ℚ) / (n : ℚ) * 100 * 10 + 1 / 2)
    (h2 : (s : ℚ) / (n : ℚ) * 100 * 10 + 1 / 2 < z + 1) :
    resultPercentage s n = (z : ℚ) / 10 := by
  unfold resultPercentage toFixed1
  rw [Int.floor_eq_iff.mpr ⟨h1, h2⟩]

/-- C6: showResults computes the percentage as the score over the quiz
length times 100 rounded to one decimal, and assigns tiers by inclusive
lower bounds at 80 and 60; in particular 4 of 5 gives 80.0 and the
excellent tier, 3 of 5 gives 60.0 and the good tier, 2 of 5 gives 40.0
and the needs-review tier, and the declarative result committed by
showResults carries exactly these values. -/
theorem C6_result_tiers :
    resultPercentage 4 5 = 80 ∧ resultTier 4 5 = Tier.excellent ∧
    resultPercentage 3 5 = 60 ∧ resultTier 3 5 = Tier.good ∧
    resultPercentage 2 5 = 40 ∧ resultTier 2 5 = Tier.needsReview ∧
    (∀ s n : Nat, 0 < n →
      (resultTier s n = Tier.excellent ↔ 80 ≤ resultPercentage s n) ∧
      (resultTier s n = Tier.good ↔
        60 ≤ resultPercentage s n ∧ resultPercentage s n < 80) ∧
      (resultTier s n = Tier.needsReview ↔ resultPercentage s n < 60)) ∧
    (∀ (st : St) (qs : List Question), st.quizData = some qs →
      (showResults st).resultView =
        some (st.score, qs.length, resultPercentage st.score qs.length,
          resultTier st.score qs.length)) := by
  have h45 : resultPercentage 4 5 = 80 := by
    rw [resultPercentage_eval 4 5 800 (by norm_num) (by norm_num)]
    norm_num
  have h35 : resultPercentage 3 5 = 60 := by
    rw [resultPercentage_eval 3 5 600 (by norm_num) (by norm_num)]
    norm_num
  have h25 : resultPercentage 2 5 = 40 := by
    rw [resultPercentage_eval 2 5 400 (by norm_num) (by norm_num)]
    norm_num
  refine ⟨h45, by unfold resultTier; rw [h45]; norm_num,
    h35, by unfold resultTier; rw [h35]; norm_num,
    h25, by unfold resultTier; rw [h25]; norm_num,
    ?_, ?_⟩
  · intro s n _
    unfold resultTier
    split_ifs with h1 h2
    · exact ⟨⟨fun _ => h1, fun _ => rfl⟩,
        ⟨fun hh => absurd hh (by decide),
         fun hh => absurd h1 (not_le.mpr hh.2)⟩,
        ⟨fun hh => absurd hh (by decide),
         fun hh => absurd h1 (not_le.mpr (hh.trans_le (by norm_num)))⟩⟩
    · exact ⟨⟨fun hh => absurd hh (by decide), fun hh => absurd hh h1⟩,
        ⟨fun _ => ⟨h2, not_le.mp h1⟩, fun _ => rfl⟩,
        ⟨fun hh => absurd hh (by decide),
         fun hh => absurd h2 (not_le.mpr hh)⟩⟩
    · exact ⟨⟨fun hh => absurd hh (by decide), fun hh => absurd hh h1⟩,
        ⟨fun hh => absurd hh (by decide), fun hh => absurd hh.1 h2⟩,
        ⟨fun _ => not_le.mp h2, fun _ => rfl⟩⟩
  · intro st qs h
    simp [showResults, h]

/-- C6 witness: the boundary case 4 of 5 instantiated through the
theorem. -/
theorem C6_result_tiers_witness :
    (resultTier 4 5 = Tier.excellent ↔ 80 ≤ resultPercentage 4 5) ∧
    (showResults stScoredOne).resultView
      = some (1, 1, resultPercentage 1 1, resultTier 1 1) := by
  exact ⟨(C6_result_tiers.2.2.2.2.2.2.1 4 5 (by decide)).1,
    C6_result_tiers.2.2.2.2.2.2.2 stScoredOne [sampleQuestion] rfl⟩

/-- C7 counterexample: the claim states that a successful non-empty
start-quiz response resets currentQuestionIndex and score to 0 for
every pre-call value.  The handler never assigns either variable: from
a state carrying index 1 and score 1 they are still 1 afterwards. -/
theorem C7_counterexample :
    (startQuizClick stStaleIndex
      (some { questions := some [sampleQuestion] })).currentQuestionIndex
        = 1 ∧
    (startQuizClick stStaleIndex
      (some { questions := some [sampleQuestion] })).score = 1 ∧
    ¬ ((startQuizClick stStaleIndex
      (some { questions := some [sampleQuestion] })).currentQuestionIndex
        = 0) := by
  refine ⟨rfl, rfl, by decide⟩

/-- C7 as amended: on a successful non-empty start-quiz response the
handler stores the questions, switches to the Quiz screen, clears the
loading flag and renders the question at the current index, but it
leaves currentQuestionIndex and score unchanged; they are 0 only
because the preceding reset left them 0, in which case the question at
index 0 is rendered. -/
theorem C7_start_quiz_amended (st : St) (qs : List Question)
    (hne : qs ≠ []) :
    (startQuizClick st (some { questions := some qs })).quizData
      = some qs ∧
    (startQuizClick st (some { questions := some qs })).screen
      = Screen.Quiz ∧
    (startQuizClick st (some { questions := some qs })).isLoading
      = false ∧
    (startQuizClick st (some { questions := some qs })).currentQuestionIndex
      = st.currentQuestionIndex ∧
    (startQuizClick st (some { questions := some qs })).score = st.score ∧
    (st.currentQuestionIndex = 0 →
      (startQuizClick st (some { questions := some qs })).renderedQuestion
        = some 0) := by
  have hbranch : ∀ r : St, (displayQuestion r).quizData = r.quizData ∧
      (displayQuestion r).screen = r.screen ∧
      (displayQuestion r).isLoading = r.isLoading ∧
      (displayQuestion r).currentQuestionIndex = r.currentQuestionIndex ∧
      (displayQuestion r).score = r.score := by
    intro r
    rcases hq : r.quizData with _ | qs2
    · simp [displayQuestion, hq]
    · rcases hg : qs2[r.currentQuestionIndex]? with _ | q <;>
        simp [displayQuestion, hq, hg]
  refine ⟨?_, ?_, ?_, ?_, ?_, ?_⟩
  · exact (hbranch _).1
  · exact (hbranch _).2.1
  · exact (hbranch _).2.2.1
  · exact (hbranch _).2.2.2.1
  · exact (hbranch _).2.2.2.2
  · intro h0
    obtain ⟨a, t, rfl⟩ : ∃ a t, qs = a :: t := by
      cases qs with
      | nil => exact absurd rfl hne
      | cons a t => exact ⟨a, t, rfl⟩
    unfold startQuizClick displayQuestion
    simp [h0]

/-- C7 witness: the amended statement instantiated at the reachable
lesson state with a one-question payload. -/
theorem C7_start_quiz_amended_witness :
    (startQuizClick lessonState
      (some { questions := some [sampleQuestion] })).screen = Screen.Quiz ∧
    (startQuizClick lessonState
      (some { questions := some [sampleQuestion] })).renderedQuestion
        = some 0 := by
  exact ⟨(C7_start_quiz_amended lessonState [sampleQuestion]
      (by decide)).2.1,
    (C7_start_quiz_amended lessonState [sampleQuestion] (by decide)).2.2.2.2.2
      (by decide)⟩

/-- C8: a generate click with an empty topic alerts and returns before
reading the response or touching any state, so the state is unchanged
(the screen in particular), and the result does not depend on what the
network would have answered, i.e. no request is issued. -/
theorem C8_empty_topic_validation (st : St)
    (resp resp2 : Option LessonPayload) (h : st.topicValue = "") :
    generateClick st resp = st ∧
    generateClick st resp = generateClick st resp2 ∧
    (generateClick st resp).screen = st.screen := by
  unfold generateClick
  rw [if_pos h, if_pos h]
  exact ⟨rfl, rfl, rfl⟩

/-- C8 witness: the initial state has an empty topic input. -/
theorem C8_empty_topic_validation_witness :
    generateClick initialState
        (some { lesson_html := some "content" }) = initialState ∧
    generateClick initialState (some { lesson_html := some "content" })
      = generateClick initialState none := by
  exact ⟨(C8_empty_topic_validation initialState
      (some { lesson_html := some "content" }) none (by decide)).1,
    (C8_empty_topic_validation initialState
      (some { lesson_html := some "content" }) none (by decide)).2.1⟩

/-- C9: whenever a generation call fails (fetchAPI returned null after
a transport failure, a non-ok status or a parse error) or its payload
lacks the required field, the handler commits nothing: the screen,
quizData, currentQuestionIndex, score and the stored lesson are
unchanged, and the loading flag ends false because the finally clause
of fetchAPI hides the spinner. -/
theorem C9_generation_error_recovery (st st2 : St)
    (resp : Option LessonPayload) (resp2 : Option QuizPayload)
    (htopic : ¬ st.topicValue = "")
    (h1 : lessonOk resp = false) (h2 : quizOk resp2 = false) :
    ((generateClick st resp).screen = st.screen ∧
     (generateClick st resp).isLoading = false ∧
     (generateClick st resp).quizData = st.quizData ∧
     (generateClick st resp).currentQuestionIndex
       = st.currentQuestionIndex ∧
     (generateClick st resp).score = st.score ∧
     (generateClick st resp).lessonContent = st.lessonContent) ∧
    ((startQuizClick st2 resp2).screen = st2.screen ∧
     (startQuizClick st2 resp2).isLoading = false ∧
     (startQuizClick st2 resp2).quizData = st2.quizData ∧
     (startQuizClick st2 resp2).currentQuestionIndex
       = st2.currentQuestionIndex ∧
     (startQuizClick st2 resp2).score = st2.score ∧
     (startQuizClick st2 resp2).lessonContent = st2.lessonContent) := by
  constructor
  · rcases resp with _ | p
    · simp [generateClick, htopic]
    · rcases p with ⟨_ | s⟩
      · simp [generateClick, htopic]
      · have hs : s = "" := by simpa [lessonOk] using h1
        subst hs
        simp [generateClick, htopic]
  · rcases resp2 with _ | p
    · simp [startQuizClick]
    · rcases p with ⟨_ | qs⟩
      · simp [startQuizClick]
      · simp [quizOk] at h2

/-- C9 witness: a failed lesson call from the filled-in setup state and
a quiz payload missing its questions field from the lesson state. -/
theorem C9_generation_error_recovery_witness :
    (generateClick { initialState with topicValue := "Fractions" }
        none).screen
      = ({ initialState with topicValue := "Fractions" } : St).screen ∧
    (startQuizClick lessonState (some { questions := none })).quizData
      = lessonState.quizData := by
  exact ⟨(C9_generation_error_recovery
      { initialState with topicValue := "Fractions" } lessonState
      none (some { questions := none })
      (by decide) (by decide) (by decide)).1.1,
    (C9_generation_error_recovery
      { initialState with topicValue := "Fractions" } lessonState
      none (some { questions := none })
      (by decide) (by decide) (by decide)).2.2.2.1⟩

/-- Inside the quiz, a submit click with an option selected scores by
strict string equality with the stored answer, shows feedback, hides
the submit button and schedules the delayed advance; nothing else
changes. -/
theorem submitAnswerClick_progress (qs : List Question) (st : St)
    (a : String) (q : Question) (hquiz : st.quizData = some qs)
    (hq : qs[st.currentQuestionIndex]? = some q) :
    submitAnswerClick st (some a)
      = { st with
          score := st.score + (if a = q.answer then 1 else 0)
          feedback := feedbackFor a q
          submitVisible := false
          pendingAdvance := true } := by
  by_cases ha : a = q.answer <;>
    simp [submitAnswerClick, hquiz, hq, ha]

/-- The delayed callback always increments currentQuestionIndex by
exactly one, in every branch it can take. -/
theorem fireAdvance_index (s : St) :
    (fireAdvance s).currentQuestionIndex = s.currentQuestionIndex + 1 := by
  rcases hq : s.quizData with _ | qs2
  · simp [fireAdvance, hq]
  · by_cases hlt : s.currentQuestionIndex + 1 < qs2.length
    · rcases hg : qs2[s.currentQuestionIndex + 1]? with _ | q <;>
        simp [fireAdvance, displayQuestion, hq, hlt, hg]
    · simp [fireAdvance, showResults, hq, hlt]

/-- A step after the quiz has ended is a no-op: the quiz section and
the submit button are hidden, and no callback is pending. -/
theorem quizStep_done (qs : List Question) (st : St) (a : String)
    (h : QuizInv qs st) (hd : st.currentQuestionIndex = qs.length) :
    quizStep st a = st := by
  obtain ⟨hquiz, hpend, herr, hsc, hidx, hscr, hsub⟩ := h
  have hnlt : ¬ st.currentQuestionIndex < qs.length := by omega
  simp [quizStep, clickSubmit, elapse, hscr, hsub, hpend, hnlt]

/-- One full step from a state with questions remaining: the score
rule, the index increment, the re-render of the next question or the
single transition to Result, and preservation of the invariant. -/
theorem quizStep_progress (qs : List Question) (st : St) (a : String)
    (q : Question) (h : QuizInv qs st)
    (hq : qs[st.currentQuestionIndex]? = some q) :
    QuizInv qs (quizStep st a) ∧
    (quizStep st a).currentQuestionIndex = st.currentQuestionIndex + 1 ∧
    (quizStep st a).score = st.score + (if a = q.answer then 1 else 0) ∧
    (st.currentQuestionIndex + 1 < qs.length →
      (quizStep st a).screen = Screen.Quiz ∧
      (quizStep st a).feedback = "" ∧
      (quizStep st a).submitVisible = true ∧
      (quizStep st a).renderedQuestion
        = some (st.currentQuestionIndex + 1)) ∧
    (st.currentQuestionIndex + 1 = qs.length →
      (quizStep st a).screen = Screen.Result ∧
      (quizStep st a).submitVisible = false) := by
  obtain ⟨hquiz, hpend, herr, hsc, hidx, hscr, hsub⟩ := h
  have hlt : st.currentQuestionIndex < qs.length := by
    rcases List.getElem?_eq_some.mp hq with ⟨hh, _⟩
    exact hh
  have hscr2 : st.screen = Screen.Quiz := by rw [hscr, if_pos hlt]
  have hsub2 : st.submitVisible = true := by rw [hsub]; simp [hlt]
  have hstep : quizStep st a
      = fireAdvance (submitAnswerClick st (some a)) := by
    simp [quizStep, clickSubmit, elapse, hscr2, hsub2,
      submitAnswerClick_progress qs st a q hquiz hq]
  rw [hstep, submitAnswerClick_progress qs st a q hquiz hq]
  by_cases h2 : st.currentQuestionIndex + 1 < qs.length
  · have hq2 : qs[st.currentQuestionIndex + 1]?
        = some (qs[st.currentQuestionIndex + 1]) :=
      List.getElem?_eq_getElem h2
    by_cases ha : a = q.answer <;>
      refine ⟨⟨?_, ?_, ?_, ?_, ?_, ?_, ?_⟩, ?_, ?_, ?_, ?_⟩ <;>
        simp [fireAdvance, displayQuestion, hquiz, hq2, h2, herr, ha, hscr2] <;>
        try omega
  · have he : st.currentQuestionIndex + 1 = qs.length := by omega
    by_cases ha : a = q.answer <;>
      refine ⟨⟨?_, ?_, ?_, ?_, ?_, ?_, ?_⟩, ?_, ?_, ?_, ?_⟩ <;>
        simp [fireAdvance, showResults, hquiz, h2, herr, ha, hscr2] <;>
        try omega

/-- Running any list of answers preserves the invariant, and the index
advances one per processed answer, clamped at the quiz length. -/
theorem runAnswers_inv (qs : List Question) :
    ∀ (answers : List String) (st : St), QuizInv qs st →
      QuizInv qs (runAnswers st answers) ∧
      (runAnswers st answers).currentQuestionIndex
        = min (st.currentQuestionIndex + answers.length) qs.length := by
  intro answers
  induction answers with
  | nil =>
    intro st h
    refine ⟨h, ?_⟩
    have := h.2.2.2.2.1
    simp [runAnswers]
    omega
  | cons a rest ih =>
    intro st h
    have hfold : runAnswers st (a :: rest)
        = runAnswers (quizStep st a) rest := rfl
    by_cases hlt : st.currentQuestionIndex < qs.length
    · have hq : qs[st.currentQuestionIndex]?
          = some (qs[st.currentQuestionIndex]) :=
        List.getElem?_eq_getElem hlt
      obtain ⟨hinv, hidx, -, -, -⟩ :=
        quizStep_progress qs st a (qs[st.currentQuestionIndex]) h hq
      obtain ⟨hinv2, hidx2⟩ := ih (quizStep st a) hinv
      refine ⟨by rwa [hfold], ?_⟩
      rw [hfold, hidx2, hidx]
      simp only [List.length_cons]
      omega
    · have hd : st.currentQuestionIndex = qs.length := by
        have := h.2.2.2.2.1
        omega
      rw [hfold, quizStep_done qs st a h hd]
      obtain ⟨hinv2, hidx2⟩ := ih st h
      refine ⟨hinv2, ?_⟩
      rw [hidx2]
      simp only [List.length_cons]
      omega

/-- C4: along any run of a quiz of length n the score stays between 0
and n (it is a Nat and never exceeds the index, which never exceeds n),
and a submit click changes the score by exactly one precisely when the
selected option is strictly equal to the stored answer of the current
question, and leaves it unchanged otherwise. -/
theorem C4_score_bounds (qs : List Question) (st : St)
    (answers : List String) (h : QuizInv qs st) :
    (∀ k, (runAnswers st (answers.take k)).score ≤ qs.length) ∧
    (∀ (a : String) (q : Question),
      qs[st.currentQuestionIndex]? = some q →
      ((submitAnswerClick st (some a)).score = st.score + 1 ↔
        a = q.answer) ∧
      ((submitAnswerClick st (some a)).score = st.score ↔
        ¬ a = q.answer)) := by
  constructor
  · intro k
    obtain ⟨hinv, -⟩ := runAnswers_inv qs (answers.take k) st h
    have h1 := hinv.2.2.2.1
    have h2 := hinv.2.2.2.2.1
    omega
  · intro a q hq
    rw [submitAnswerClick_progress qs st a q h.1 hq]
    by_cases ha : a = q.answer <;> simp [ha]

/-- C4 witness: the one-question run from the reachable quiz start
state, answered correctly. -/
theorem C4_score_bounds_witness :
    (runAnswers quizStartState (["3/4"].take 1)).score ≤ 1 ∧
    ((submitAnswerClick quizStartState (some "3/4")).score
      = quizStartState.score + 1 ↔ "3/4" = sampleQuestion.answer) := by
  exact ⟨(C4_score_bounds [sampleQuestion] quizStartState ["3/4"]
      (by decide)).1 1,
    ((C4_score_bounds [sampleQuestion] quizStartState ["3/4"]
      (by decide)).2 "3/4" sampleQuestion (by decide)).1⟩

/-- C5: a submit click on the current question turns the pending flag
from false to true (exactly one scheduled advance); the delayed
callback always increments the index by exactly one; along a run from
index 0 the index equals the number of processed answers clamped at
the quiz length and never exceeds it; the visible section is Result
precisely from the moment all questions are processed (the single
transition to Result); and a step with questions remaining re-renders
the next question with feedback cleared and submission re-enabled,
while the final step shows Result. -/
theorem C5_advance_spec (qs : List Question) (st : St)
    (answers : List String) (h : QuizInv qs st)
    (h0 : st.currentQuestionIndex = 0) :
    (∀ (a : String) (q : Question),
      qs[st.currentQuestionIndex]? = some q →
      st.pendingAdvance = false ∧
      (submitAnswerClick st (some a)).pendingAdvance = true) ∧
    (∀ s : St, (fireAdvance s).currentQuestionIndex
      = s.currentQuestionIndex + 1) ∧
    (∀ k, (runAnswers st (answers.take k)).currentQuestionIndex
      ≤ qs.length) ∧
    (∀ k, (runAnswers st (answers.take k)).currentQuestionIndex
      = min (min k answers.length) qs.length) ∧
    (∀ k, ((runAnswers st (answers.take k)).screen = Screen.Result
      ↔ qs.length ≤ min k answers.length)) ∧
    (∀ (a : String), st.currentQuestionIndex + 1 < qs.length →
      (quizStep st a).feedback = "" ∧
      (quizStep st a).submitVisible = true ∧
      (quizStep st a).renderedQuestion
        = some (st.currentQuestionIndex + 1)) ∧
    (∀ (a : String), st.currentQuestionIndex + 1 = qs.length →
      (quizStep st a).screen = Screen.Result) := by
  have hidx : ∀ k, (runAnswers st (answers.take k)).currentQuestionIndex
      = min (min k answers.length) qs.length := by
    intro k
    obtain ⟨-, hi⟩ := runAnswers_inv qs (answers.take k) st h
    rw [hi, h0, List.length_take]
    omega
  refine ⟨?_, fireAdvance_index, ?_, hidx, ?_, ?_, ?_⟩
  · intro a q hq
    rw [submitAnswerClick_progress qs st a q h.1 hq]
    exact ⟨h.2.1, rfl⟩
  · intro k
    rw [hidx k]
    omega
  · intro k
    obtain ⟨hinv, -⟩ := runAnswers_inv qs (answers.take k) st h
    rw [hinv.2.2.2.2.2.1, hidx k]
    by_cases hc : min (min k answers.length) qs.length < qs.length
    · simp [hc]
      try omega
    · simp [hc]
      try omega
  · intro a hlt1
    have hlt : st.currentQuestionIndex < qs.length := by omega
    have hq : qs[st.currentQuestionIndex]?
        = some (qs[st.currentQuestionIndex]) :=
      List.getElem?_eq_getElem hlt
    obtain ⟨-, -, -, hnext, -⟩ :=
      quizStep_progress qs st a (qs[st.currentQuestionIndex]) h hq
    obtain ⟨-, hf, hs, hr⟩ := hnext hlt1
    exact ⟨hf, hs, hr⟩
  · intro a heq
    have hlt : st.currentQuestionIndex < qs.length := by omega
    have hq : qs[st.currentQuestionIndex]?
        = some (qs[st.currentQuestionIndex]) :=
      List.getElem?_eq_getElem hlt
    obtain ⟨-, -, -, -, hfin⟩ :=
      quizStep_progress qs st a (qs[st.currentQuestionIndex]) h hq
    exact (hfin heq).1

/-- C5 witness: the one-question run from the reachable quiz start
state reaches Result after its single answer. -/
theorem C5_advance_spec_witness :
    ((runAnswers quizStartState (["3/4"].take 1)).screen = Screen.Result
      ↔ 1 ≤ min 1 1) ∧
    (submitAnswerClick quizStartState (some "3/4")).pendingAdvance
      = true := by
  exact ⟨(C5_advance_spec [sampleQuestion] quizStartState ["3/4"]
      (by decide) (by decide)).2.2.2.2.1 1,
    ((C5_advance_spec [sampleQuestion] quizStartState ["3/4"]
      (by decide) (by decide)).1 "3/4" sampleQuestion (by decide)).2⟩

/-- C10 counterexample: the claim states that the start-of-session
state and the post-restart state are identical.  Both are produced by
resetUI, but resetUI is not constant: applied to the reachable
lessonState it keeps the committed selections and the rendered lesson
content, so the result differs from the initial state. -/
theorem C10_counterexample :
    restartClick lessonState ≠ initialState := by
  decide

/-- C10 as amended: initialisation and the restart handler do invoke
the same routine, resetUI, so the start state and every post-restart
state agree on every field resetUI writes (screen, quizData, index,
score, topic input, feedback, start-quiz button); fields resetUI does
not write (selections, lesson content, rendered question, result view,
loading flag) keep their prior values and can differ. -/
theorem C10_init_restart_amended (st : St) :
    restartClick st = resetUI st ∧
    initialState = resetUI startupState ∧
    (resetUI st).screen = initialState.screen ∧
    (resetUI st).quizData = initialState.quizData ∧
    (resetUI st).currentQuestionIndex
      = initialState.currentQuestionIndex ∧
    (resetUI st).score = initialState.score ∧
    (resetUI st).topicValue = initialState.topicValue ∧
    (resetUI st).feedback = initialState.feedback ∧
    (resetUI st).startQuizVisible = initialState.startQuizVisible := by
  refine ⟨rfl, rfl, rfl, rfl, rfl, rfl, rfl, rfl, rfl⟩

end AITutor
